import Mathlib

/-!
Shallow embedding of the twurple OAuth credential provider core
(`packages/auth/src/AuthProvider/AbstractProvider.ts`, `AbstractRefreshableProvider.ts`,
`AbstractStaticProvider.ts`, `StaticAuthProvider.ts`).

Modelling conventions:
* JavaScript `Date` values are milliseconds since the epoch (`Int`).
* A JS promise held in the provider's `credentials` field is a `CredCell`: either
  already settled to an `Except Err Credentials`, or an in-flight refresh promise
  identified by a promise id (`Nat`).  JS is single-threaded, so the synchronous
  section of `idempotentRefresh` (everything outside the promise body) runs
  atomically; the asynchronous promise body is embedded as the pure function
  `refreshBody`, and the effect of the promise settling as `settleRefresh`.
* The external collaborators `refreshUserToken` / `getTokenInfo` /
  `saveCredentials` are oracles: their outcomes are explicit parameters.
* `refreshBody` and `initCredentials` additionally return the number of times
  the external call (`refreshUserToken` resp. `getTokenInfo`) was invoked.
-/

namespace Twurple

/-- JS truthiness of an optional string field (`undefined` and `''` are falsy). -/
def truthy : Option String → Bool
  | none => false
  | some s => !s.isEmpty

/-- Errors surfaced by the provider: `FatalProviderError msg`, or an error coming
from an external collaborator (upstream HTTP / persistence), carried opaquely. -/
inductive Err where
  | fatal (msg : String)
  | upstream (msg : String)
deriving DecidableEq, Repr

/-- `Credentials` from `AbstractProvider.ts` (lines 13–24): `expiryDate : Date` is
non-nullable there, `clientSecret`/`refreshToken` are optional. -/
structure Credentials where
  clientId : String
  accessToken : String
  clientSecret : Option String
  refreshToken : Option String
  scopes : List String
  expiryDate : Int
  expiresIn : Int
  timestamp : Int
deriving DecidableEq, Repr

/-- Modelled from the spec: the external `AccessToken` object returned by the
collaborator `refreshUserToken` (the `AccessToken` class itself is not under the
analysed sources).  `expiryDate` is nullable; `expiresIn` models the raw
`_data.expires_in` field (absent = `none`), `obtainmentDate` models
`_obtainmentDate` (`none` = not a `Date`). -/
structure AccessToken where
  accessToken : String
  refreshToken : String
  scope : List String
  expiryDate : Option Int
  expiresIn : Option Int
  obtainmentDate : Option Int
deriving DecidableEq, Repr

instance {ε α : Type} [DecidableEq ε] [DecidableEq α] : DecidableEq (Except ε α)
  | .ok x, .ok y => decidable_of_iff (x = y) ⟨fun h => by rw [h], fun h => by cases h; rfl⟩
  | .ok _, .error _ => isFalse fun h => by cases h
  | .error _, .ok _ => isFalse fun h => by cases h
  | .error x, .error y => decidable_of_iff (x = y) ⟨fun h => by rw [h], fun h => by cases h; rfl⟩

/-- A value of the refresh map: an in-flight refresh promise or a settled record
(`Map<string, Promise<RefreshableCredentials> | RefreshableCredentials>`). -/
inductive RefreshEntry where
  | inflight (pid : Nat)
  | settled (c : Credentials)
deriving DecidableEq, Repr

/-- The provider's `credentials` promise: either settled (resolved or rejected)
or an in-flight refresh promise identified by its promise id. -/
inductive CredCell where
  | settled (r : Except Err Credentials)
  | pending (pid : Nat)
deriving DecidableEq, Repr

/-- Association-list lookup, first match wins (JS `Map.get`). -/
def mapFind? (m : List (String × RefreshEntry)) (k : String) : Option RefreshEntry :=
  match m with
  | [] => none
  | (k', v) :: rest => if k' = k then some v else mapFind? rest k

/-- JS `Map.set`: replace the value in place, or append a new binding. -/
def mapSet (m : List (String × RefreshEntry)) (k : String) (v : RefreshEntry) :
    List (String × RefreshEntry) :=
  match m with
  | [] => [(k, v)]
  | (k', v') :: rest => if k' = k then (k', v) :: rest else (k', v') :: mapSet rest k v

/-- JS `Map.delete`. -/
def mapErase (m : List (String × RefreshEntry)) (k : String) : List (String × RefreshEntry) :=
  m.filter fun kv => kv.1 ≠ k

/-- Mutable state of an `AbstractProvider` instance, together with its
(readonly) configuration.  `parents` records, for every refresh promise id, the
`credentials` cell that the promise body chained on when it was created
(`this.credentials.then(...)` captures the cell before it is replaced). -/
structure ProviderState where
  credentials : CredCell
  refreshMap : List (String × RefreshEntry)
  refreshPadding : Int
  expiryAge : Int
  nextSave : Option Int
  nextPid : Nat
  parents : List (Nat × CredCell)
deriving DecidableEq, Repr

/-- Outcome of the synchronous section of `idempotentRefresh`: either the cached
map entry was returned, or a fresh refresh promise was created and installed. -/
inductive RefreshCall where
  | cached (e : RefreshEntry)
  | created (pid : Nat)
deriving DecidableEq, Repr

/-- `AbstractProvider.idempotentRefresh` (lines 148–269), synchronous section.
If `refreshMap` holds an entry for `oldAccessToken` it is returned unchanged
(both a promise and a settled record are truthy).  Otherwise a new refresh
promise is synthesized — capturing the current `credentials` cell as the parent
its body chains on — and, still synchronously: `nextSave` is cleared,
`this.credentials` is replaced by the new promise, and the promise is installed
in the refresh map. -/
def idempotentRefreshSync (st : ProviderState) (oldAccessToken : String) :
    ProviderState × RefreshCall :=
  match mapFind? st.refreshMap oldAccessToken with
  | some e => (st, .cached e)
  | none =>
    let pid := st.nextPid
    ({ st with
        nextSave := none
        credentials := .pending pid
        refreshMap := mapSet st.refreshMap oldAccessToken (.inflight pid)
        nextPid := pid + 1
        parents := (pid, st.credentials) :: st.parents },
      .created pid)

/-- Body of the refresh promise in `AbstractProvider.idempotentRefresh`
(lines 163–259): the continuation of `this.credentials.then(...)`, evaluated
once the parent cell has resolved to `parent`.  `upstream` is the outcome of the
external `refreshUserToken` call; the second component counts how many times
`refreshUserToken` was invoked.  A rejected parent skips the `then` callback
entirely and propagates the rejection. -/
def refreshBody (parent : Except Err Credentials) (oldAccessToken : String)
    (upstream : Except Err AccessToken) : Except Err Credentials × Nat :=
  match parent with
  | .error e => (.error e, 0)
  | .ok fullCreds =>
    if !truthy fullCreds.clientSecret then
      (.error (.fatal "No clientSecret was supplied, cannot refresh credentials"), 0)
    else if !truthy fullCreds.refreshToken then
      (.error (.fatal "No refreshToken was supplied, cannot refresh credentials"), 0)
    else if fullCreds.accessToken ≠ oldAccessToken then
      (.error (.fatal "Refresh was called with a stale or unknown access token"), 0)
    else
      match upstream with
      | .error e => (.error e, 1)
      | .ok newAccessToken =>
        match newAccessToken.expiryDate with
        | none => (.error (.fatal "refreshUserToken did not return an expiryDate"), 1)
        | some newExpiryDate =>
          match newAccessToken.expiresIn with
          | none => (.error (.fatal "Twitch API did not return `expires_in`"), 1)
          | some expiresIn =>
            match newAccessToken.obtainmentDate with
            | none => (.error (.fatal "Internal error: no obtainmentDate from AccessToken"), 1)
            | some timestamp =>
              (.ok { clientId := fullCreds.clientId
                     clientSecret := fullCreds.clientSecret
                     accessToken := newAccessToken.accessToken
                     expiryDate := newExpiryDate
                     refreshToken := some newAccessToken.refreshToken
                     scopes := newAccessToken.scope
                     expiresIn := expiresIn
                     timestamp := timestamp }, 1)

/-- `AbstractProvider.trySaveCredentials` (lines 316–342): a resolving
`saveCredentials` clears `nextSave`; a rejecting one is absorbed, logged, and
sets `nextSave` one minute (60 000 ms) into the future. -/
def trySaveCredentials (st : ProviderState) (now : Int) (saveOk : Bool) : ProviderState :=
  if saveOk then { st with nextSave := none }
  else { st with nextSave := some (now + 60000) }

/-- Effect on provider state of the refresh promise `pid` (for key
`oldAccessToken`) settling with `result`.  On success the body stored the
settled record in the refresh map (line 236) and fired `trySaveCredentials`
(line 243, with outcome `saveOk` at time `now`); on failure the `.catch` handler
removed the map entry (line 253).  If the `credentials` cell still holds this
promise, it is now a settled cell with the same result — every awaiter of the
promise observes exactly `result`. -/
def settleRefresh (st : ProviderState) (pid : Nat) (oldAccessToken : String)
    (result : Except Err Credentials) (now : Int) (saveOk : Bool) : ProviderState :=
  let st1 :=
    match result with
    | .ok newCreds =>
        trySaveCredentials
          { st with refreshMap := mapSet st.refreshMap oldAccessToken (.settled newCreds) }
          now saveOk
    | .error _ => { st with refreshMap := mapErase st.refreshMap oldAccessToken }
  if st1.credentials = .pending pid then { st1 with credentials := .settled result } else st1

/-- Result of `AbstractProvider.fetch`: the settled current credentials were
returned; or the call returned `this.idempotentRefresh(tok)` (whose synchronous
outcome is recorded); or the returned promise rejects with `e`. -/
inductive FetchResult where
  | value (c : Credentials)
  | refresh (tok : String) (r : RefreshCall)
  | failure (e : Err)
deriving DecidableEq, Repr

/-- Whether a `fetch` outcome delegated to `idempotentRefresh`. -/
def FetchResult.attemptsRefresh : FetchResult → Bool
  | .refresh _ _ => true
  | _ => false

/-- Post-state, result and save-attempt flag of one `fetch` call. -/
structure FetchStep where
  state : ProviderState
  result : FetchResult
  saveAttempted : Bool
deriving DecidableEq, Repr

/-- `AbstractProvider.fetch` (lines 115–140), from the point where
`await this.credentials` has resolved to `cur` (a rejected cell rethrows).
`now` is `new Date().getTime()` sampled at entry; `saveOk` is the outcome of
`saveCredentials` should a retry-save be attempted. -/
def fetchResolved (st : ProviderState) (cur : Except Err Credentials) (now : Int)
    (saveOk : Bool) : FetchStep :=
  match cur with
  | .error e => ⟨st, .failure e, false⟩
  | .ok fullCreds =>
    if fullCreds.expiryDate - now - st.refreshPadding ≤ 0 then
      if truthy fullCreds.clientSecret && truthy fullCreds.refreshToken then
        let p := idempotentRefreshSync st fullCreds.accessToken
        ⟨p.1, .refresh fullCreds.accessToken p.2, false⟩
      else ⟨st, .failure (.fatal "Static credentials have expired"), false⟩
    else
      match st.nextSave with
      | some t =>
        if t < now then ⟨trySaveCredentials st now saveOk, .value fullCreds, true⟩
        else ⟨st, .value fullCreds, false⟩
      | none => ⟨st, .value fullCreds, false⟩

/-- `AbstractProvider.fetch` on a settled `credentials` cell; on an in-flight
cell the call suspends and is the `fetchResolved` continuation applied to the
cell's eventual value. -/
def fetch (st : ProviderState) (now : Int) (saveOk : Bool) : Option FetchStep :=
  match st.credentials with
  | .settled r => some (fetchResolved st r now saveOk)
  | .pending _ => none

/-- The retention test of `AbstractProvider.prune` (lines 352–356): an entry is
kept when it is a promise, or when its settled record's `expiryDate` is not
older than the threshold `now − expiryAge` seconds (`expiryAge` is configured
in seconds, dates are in ms). -/
def pruneKeep (expiryAge now : Int) (kv : String × RefreshEntry) : Bool :=
  match kv.2 with
  | .inflight _ => true
  | .settled c => !decide (c.expiryDate < now - expiryAge * 1000)

/-- `AbstractProvider.prune` (lines 344–357): removes every entry whose value is
a settled record (not a promise) with `expiryDate` older than `expiryAge`
seconds before `now`; in-flight promises are kept. -/
def prune (st : ProviderState) (now : Int) : ProviderState :=
  { st with refreshMap := st.refreshMap.filter (pruneKeep st.expiryAge now) }

/-- Modelled from the spec: the external `TokenInfo` object returned by the
collaborator `getTokenInfo(accessToken, clientId)` (the `TokenInfo` class is not
under the analysed sources).  `scopes = none` models a non-list value;
`expiryDate = none` models a `null` expiry, which the identity service reports
when `expires_in` is missing ("permanent or unknown validity"); `expiresIn`
models the raw `_data.expires_in`, `obtainmentDate` the `_obtainmentDate`. -/
structure TokenInfo where
  scopes : Option (List String)
  expiryDate : Option Int
  expiresIn : Option Int
  obtainmentDate : Option Int
deriving DecidableEq, Repr

/-- `LoadableCredentials` from `AbstractProvider.ts` (line 37): only `clientId`
and `accessToken` are required; everything else may be absent. -/
structure LoadableCredentials where
  clientId : String
  accessToken : String
  clientSecret : Option String
  refreshToken : Option String
  scopes : Option (List String)
  expiryDate : Option Int
  expiresIn : Option Int
  timestamp : Option Int
deriving DecidableEq, Repr

/-- The hydration trigger of `AbstractProvider.initCredentials` (line 277):
`!creds.scopes || !creds.expiryDate || !creds.expiresIn || !creds.timestamp`,
with JS truthiness (an absent field is falsy; a number field is also falsy when
it is `0`; arrays and `Date`s are always truthy). -/
def needsHydration (creds : LoadableCredentials) : Bool :=
  creds.scopes.isNone || creds.expiryDate.isNone ||
    (match creds.expiresIn with | none => true | some n => n = 0) ||
    creds.timestamp.isNone

/-- `AbstractProvider.initCredentials` (lines 274–308).  `tokenInfo` is the
outcome the external `getTokenInfo` would deliver; the second component counts
how many times `getTokenInfo` was invoked.  When hydration runs, `Object.assign`
overwrites `scopes`, `expiryDate`, `expiresIn` and `timestamp` with the token
info's values; the subsequent type-safety check requires `scopes` to be a list,
`expiryDate` and `timestamp` to be `Date`s and `expiresIn` to be a number, and
otherwise fails with a `FatalProviderError`.  (The fire-and-forget save of
hydrated refreshable credentials does not affect the returned value.) -/
def initCredentials (creds : LoadableCredentials) (tokenInfo : TokenInfo) :
    Except Err Credentials × Nat :=
  let hydrated :=
    if needsHydration creds then
      ({ creds with
          scopes := tokenInfo.scopes
          expiryDate := tokenInfo.expiryDate
          expiresIn := tokenInfo.expiresIn
          timestamp := tokenInfo.obtainmentDate }, 1)
    else (creds, 0)
  match hydrated.1.scopes, hydrated.1.expiryDate, hydrated.1.expiresIn, hydrated.1.timestamp with
  | some scopes, some expiryDate, some expiresIn, some timestamp =>
      (.ok { clientId := hydrated.1.clientId
             accessToken := hydrated.1.accessToken
             clientSecret := hydrated.1.clientSecret
             refreshToken := hydrated.1.refreshToken
             scopes := scopes
             expiryDate := expiryDate
             expiresIn := expiresIn
             timestamp := timestamp }, hydrated.2)
  | _, _, _, _ =>
      (.error (.fatal "Failed to hydrate missing data from the Twitch API"), hydrated.2)

/-- `initCredentials` composed with the subclass's `loadCredentials` outcome:
a load failure propagates through the credentials cell and `getTokenInfo` is
never reached. -/
def initCredentialsFromLoad (load : Except Err LoadableCredentials) (tokenInfo : TokenInfo) :
    Except Err Credentials × Nat :=
  match load with
  | .error e => (.error e, 0)
  | .ok creds => initCredentials creds tokenInfo

/-- State of a `StaticAuthProvider` (`StaticAuthProvider.ts`) after its
constructor ran: `accessToken` is the string wrapped in `_accessToken` when one
was kept (`if (accessToken)` — an absent or empty token is falsy and keeps
`_accessToken` unset; the external `AccessToken` accessor, modelled from the
spec, returns the stored `access_token` string verbatim). -/
structure StaticAuthProviderState where
  clientId : String
  accessToken : Option String
deriving DecidableEq, Repr

/-- `StaticAuthProvider` constructor (lines 37–58): `this._clientId = clientId || ''`
(the identity on strings, since the only falsy string is `''`), and
`_accessToken` is set only for a truthy `accessToken` argument. -/
def mkStaticAuthProvider (clientId : String) (accessToken : Option String) :
    StaticAuthProviderState :=
  { clientId := if clientId.isEmpty then "" else clientId
    accessToken :=
      match accessToken with
      | none => none
      | some s => if s.isEmpty then none else some s }

/-- `StaticAuthProvider.loadCredentials` (lines 60–78): rejects when no access
token string is available, then when the client id is empty; otherwise returns
the bare `{clientId, accessToken}` loadable record. -/
def staticLoadCredentials (st : StaticAuthProviderState) : Except Err LoadableCredentials :=
  match st.accessToken with
  | none => .error (.fatal "Child provider returned a null accessToken")
  | some tok =>
    if st.clientId = "" then .error (.fatal "Empty clientId given")
    else .ok { clientId := st.clientId, accessToken := tok
               clientSecret := none, refreshToken := none
               scopes := none, expiryDate := none, expiresIn := none, timestamp := none }

/-- `RefreshableCredentials` from `AbstractRefreshableProvider.ts` (lines 13–24):
here `expiryDate` is nullable and `clientSecret`/`refreshToken` are required
strings. -/
structure RCredentials where
  clientId : String
  accessToken : String
  clientSecret : String
  refreshToken : String
  scopes : List String
  expiryDate : Option Int
  expiresIn : Int
  timestamp : Int
deriving DecidableEq, Repr

/-- Control outcome of `AbstractRefreshableProvider.fetch`. -/
inductive RFetchAction where
  | value (c : RCredentials)
  | refresh (tok : String)
  | failure (e : Err)
deriving DecidableEq, Repr

/-- `AbstractRefreshableProvider.fetch` (lines 87–108), from the point where
`await this.credentials` has resolved to `fullCreds`: when `expiryDate` is not
`null` and within `refreshPadding` ms of `now`, delegate to
`idempotentRefresh(accessToken)` if the credentials are refreshable (truthy
`clientSecret` and `refreshToken`) or fail fatally; otherwise — in particular
whenever `expiryDate` is `null` — return the current credentials unchanged. -/
def rFetch (fullCreds : RCredentials) (now refreshPadding : Int) : RFetchAction :=
  match fullCreds.expiryDate with
  | some expiryDate =>
    if expiryDate - now - refreshPadding ≤ 0 then
      if !fullCreds.clientSecret.isEmpty && !fullCreds.refreshToken.isEmpty then
        .refresh fullCreds.accessToken
      else .failure (.fatal "Static credentials have expired")
    else .value fullCreds
  | none => .value fullCreds

/-- `StaticCredentials` from `AbstractStaticProvider` (src/unnamed/part_001):
`expiryDate` is nullable. -/
structure StaticCredentials where
  clientId : String
  accessToken : String
  scopes : List String
  expiryDate : Option Int
deriving DecidableEq, Repr

/-- `LoadableStaticCredentials`: `scopes` may be absent, and the `expiryDate`
property may be absent altogether (`none`), present as `null` (`some none`) or
present as a `Date` (`some (some d)`) — `Object.hasOwnProperty` distinguishes
absent from `null`. -/
structure LoadableStaticCredentials where
  clientId : String
  accessToken : String
  scopes : Option (List String)
  expiryDate : Option (Option Int)
deriving DecidableEq, Repr

/-- `AbstractStaticProvider.initCredentials` (src/unnamed/part_001, lines
169–188): hydrates via `getTokenInfo` when `scopes` is falsy or the
`expiryDate` property is absent, assigning `scopes ← tokenInfo.scopes` and
`expiryDate ← tokenInfo.expiryDate ?? null` (a missing `expires_in` from the
identity service yields a `null` token-info expiry, represented as `none`);
then fails fatally unless `scopes` is a list.  The second component counts
`getTokenInfo` invocations. -/
def staticInitCredentials (creds : LoadableStaticCredentials) (tokenInfo : TokenInfo) :
    Except Err StaticCredentials × Nat :=
  let hydrated :=
    if creds.scopes.isNone || creds.expiryDate.isNone then
      ({ creds with
          scopes := tokenInfo.scopes
          expiryDate := some tokenInfo.expiryDate }, 1)
    else (creds, 0)
  match hydrated.1.scopes with
  | some scopes =>
      (.ok { clientId := hydrated.1.clientId
             accessToken := hydrated.1.accessToken
             scopes := scopes
             expiryDate := hydrated.1.expiryDate.getD none }, hydrated.2)
  | none =>
      (.error (.fatal "Failed to hydrate missing data from the Twitch API"), hydrated.2)

/-- `n` sequential synchronous calls to `idempotentRefresh(oldAccessToken)`
arriving before any in-flight refresh settles (JS runs each synchronous section
atomically), collecting each call's outcome. -/
def idempotentRefreshN (st : ProviderState) (oldAccessToken : String) :
    Nat → ProviderState × List RefreshCall
  | 0 => (st, [])
  | n + 1 =>
    let p := idempotentRefreshSync st oldAccessToken
    let q := idempotentRefreshN p.1 oldAccessToken n
    (q.1, p.2 :: q.2)

/-- Number of refresh promises created by a list of `idempotentRefresh`
outcomes; only created promises ever run a body, and hence only they can invoke
the external `refreshUserToken`. -/
def createdCount (rs : List RefreshCall) : Nat :=
  rs.countP fun r => match r with | .created _ => true | _ => false

/-! ### Concrete example values (used by witnesses and counterexamples) -/

/-- Scenario S1/S2 credentials: loaded at 2021-04-15T00:00:00Z, expiring
2021-04-16T00:00:00Z (all instants in ms since the epoch). -/
def exCur : Credentials :=
  { clientId := "c", accessToken := "a0", clientSecret := some "s"
    refreshToken := some "r0", scopes := ["x"], expiryDate := 1618531200000
    expiresIn := 86400, timestamp := 1618444800000 }

/-- Default-configured provider holding `exCur`, empty refresh map. -/
def exSt : ProviderState :=
  { credentials := .settled (.ok exCur), refreshMap := [], refreshPadding := 500
    expiryAge := 86400, nextSave := none, nextPid := 0, parents := [] }

/-- Upstream `refreshUserToken` outcome for the scenarios: token `a1`. -/
def exTok : AccessToken :=
  { accessToken := "a1", refreshToken := "r1", scope := ["x", "y"]
    expiryDate := some 1618534801000, expiresIn := some 3600
    obtainmentDate := some 1618531201000 }

/-- The credentials produced by a successful refresh of `exCur` with `exTok`. -/
def exNew : Credentials :=
  { clientId := "c", accessToken := "a1", clientSecret := some "s"
    refreshToken := some "r1", scopes := ["x", "y"], expiryDate := 1618534801000
    expiresIn := 3600, timestamp := 1618531201000 }

/-! ### Helper lemmas about the refresh map -/

theorem mapFind?_mapSet_self (m : List (String × RefreshEntry)) (k : String) (v : RefreshEntry) :
    mapFind? (mapSet m k v) k = some v := by
  induction m with
  | nil => simp [mapSet, mapFind?]
  | cons hd tl ih =>
    obtain ⟨k', v'⟩ := hd
    by_cases h : k' = k
    · simp [mapSet, h, mapFind?]
    · simp [mapSet, h, mapFind?, ih]

theorem mapFind?_mapErase_self (m : List (String × RefreshEntry)) (k : String) :
    mapFind? (mapErase m k) k = none := by
  induction m with
  | nil => simp [mapErase, mapFind?]
  | cons hd tl ih =>
    obtain ⟨k', v'⟩ := hd
    by_cases h : k' = k
    · simpa [mapErase, h] using ih
    · simpa [mapErase, h, mapFind?] using ih

theorem idempotentRefreshN_cached (st : ProviderState) (old : String) (e : RefreshEntry)
    (h : mapFind? st.refreshMap old = some e) :
    ∀ n, idempotentRefreshN st old n = (st, List.replicate n (.cached e)) := by
  intro n
  induction n with
  | zero => simp [idempotentRefreshN]
  | succ n ih =>
    simp [idempotentRefreshN, idempotentRefreshSync, h, ih, List.replicate_succ]

theorem createdCount_replicate_cached (n : Nat) (e : RefreshEntry) :
    createdCount (List.replicate n (.cached e)) = 0 := by
  induction n with
  | zero => simp [createdCount]
  | succ n ih =>
    simp [createdCount, List.replicate_succ, List.countP_cons]

theorem fetch_saveAttempted_iff (st : ProviderState) (cur : Credentials) (now : Int)
    (saveOk : Bool) :
    (fetchResolved st (.ok cur) now saveOk).saveAttempted = true ↔
      ¬cur.expiryDate - now - st.refreshPadding ≤ 0 ∧
        ∃ t, st.nextSave = some t ∧ t < now := by
  simp only [fetchResolved]
  by_cases hexp : cur.expiryDate - now - st.refreshPadding ≤ 0
  · rw [if_pos hexp]
    split <;> simp [hexp]
  · rw [if_neg hexp]
    generalize st.nextSave = ns
    rcases ns with _ | t
    · simp [hexp]
    · by_cases ht : t < now
      · simp [ht, hexp]
      · simp [ht, hexp]

theorem trySave_refreshMap (st : ProviderState) (now : Int) (b : Bool) :
    (trySaveCredentials st now b).refreshMap = st.refreshMap := by
  cases b <;> simp [trySaveCredentials]

theorem trySave_credentials (st : ProviderState) (now : Int) (b : Bool) :
    (trySaveCredentials st now b).credentials = st.credentials := by
  cases b <;> simp [trySaveCredentials]

theorem settleRefresh_ok_refreshMap (st : ProviderState) (pid : Nat) (old : String)
    (c : Credentials) (now : Int) (saveOk : Bool) :
    (settleRefresh st pid old (.ok c) now saveOk).refreshMap
      = mapSet st.refreshMap old (.settled c) := by
  simp only [settleRefresh]
  split <;> simp [trySave_refreshMap]

theorem settleRefresh_error_refreshMap (st : ProviderState) (pid : Nat) (old : String)
    (e : Err) (now : Int) (saveOk : Bool) :
    (settleRefresh st pid old (.error e) now saveOk).refreshMap
      = mapErase st.refreshMap old := by
  simp only [settleRefresh]
  split <;> simp

theorem settleRefresh_credentials_pending (st : ProviderState) (pid : Nat) (old : String)
    (r : Except Err Credentials) (now : Int) (saveOk : Bool)
    (h : st.credentials = .pending pid) :
    (settleRefresh st pid old r now saveOk).credentials = .settled r := by
  rcases r with e | c
  · simp only [settleRefresh]
    split
    · simp
    · next hne => exact absurd (by simpa using h) hne
  · simp only [settleRefresh]
    split
    · simp
    · next hne =>
      exact absurd (by simp [trySave_credentials]; simpa using h) hne

/-! ### The claims -/

/-- C1: if `RefreshMap[T]` already holds an entry (in-flight promise or settled
record), `idempotentRefresh T` returns that entry and leaves the state unchanged
— in particular no promise body is created, so `refreshUserToken` is not
invoked.  Consequently, for `n ≥ 1` sequential or concurrent calls with the same
`T`: the first call creates a single refresh promise (id `st.nextPid`) and every
further call returns that same promise, so every caller obtains that promise's
one result; only the created body can invoke `refreshUserToken`, and when `T` is
the live token of the settled cell (truthy secret and refresh token) that body
invokes it exactly once; once the body succeeds, the map holds the settled new
record, so later calls keep returning the same new credentials. -/
theorem idempotent_refresh_single_flight :
    (∀ st old e, mapFind? st.refreshMap old = some e →
        idempotentRefreshSync st old = (st, .cached e)) ∧
    (∀ st old n, 1 ≤ n → mapFind? st.refreshMap old = none →
        (idempotentRefreshN st old n).2.head? = some (.created st.nextPid) ∧
        (∀ r ∈ (idempotentRefreshN st old n).2.tail, r = .cached (.inflight st.nextPid)) ∧
        createdCount (idempotentRefreshN st old n).2 = 1 ∧
        mapFind? (idempotentRefreshN st old n).1.refreshMap old
          = some (.inflight st.nextPid)) ∧
    (∀ cur old upstream, truthy cur.clientSecret = true → truthy cur.refreshToken = true →
        cur.accessToken = old →
        (refreshBody (.ok cur) old upstream).2 = 1) ∧
    (∀ st pid old newCreds now saveOk,
        mapFind? (settleRefresh st pid old (.ok newCreds) now saveOk).refreshMap old
          = some (.settled newCreds)) := by
  refine ⟨?_, ?_, ?_, ?_⟩
  · intro st old e h
    simp [idempotentRefreshSync, h]
  · intro st old n hn hnone
    obtain ⟨m, rfl⟩ : ∃ m, n = m + 1 := ⟨n - 1, by omega⟩
    have hsync : idempotentRefreshSync st old =
        ({ st with
            nextSave := none
            credentials := .pending st.nextPid
            refreshMap := mapSet st.refreshMap old (.inflight st.nextPid)
            nextPid := st.nextPid + 1
            parents := (st.nextPid, st.credentials) :: st.parents },
          .created st.nextPid) := by
      simp [idempotentRefreshSync, hnone]
    have hrest := idempotentRefreshN_cached
      { st with
          nextSave := none
          credentials := .pending st.nextPid
          refreshMap := mapSet st.refreshMap old (.inflight st.nextPid)
          nextPid := st.nextPid + 1
          parents := (st.nextPid, st.credentials) :: st.parents }
      old (.inflight st.nextPid) (by simp [mapFind?_mapSet_self]) m
    have hrun : idempotentRefreshN st old (m + 1) =
        ((idempotentRefreshN st old (m + 1)).1,
          .created st.nextPid :: List.replicate m (.cached (.inflight st.nextPid))) := by
      simp [idempotentRefreshN, hsync, hrest]
    refine ⟨?_, ?_, ?_, ?_⟩
    · rw [hrun]
      rfl
    · intro r hr
      rw [hrun] at hr
      simpa using List.eq_of_mem_replicate hr
    · rw [hrun]
      have h0 := createdCount_replicate_cached m (.inflight st.nextPid)
      simp only [createdCount] at h0 ⊢
      rw [List.countP_cons, h0]
      simp
    · simp [idempotentRefreshN, hsync, hrest, mapFind?_mapSet_self]
  · intro cur old upstream hsec href hacc
    rcases upstream with e | tok
    · simp [refreshBody, hsec, href, hacc]
    · rcases tok with ⟨a, r, sc, hexp, hexpin, hobt⟩
      rcases hexp with _ | d <;> rcases hexpin with _ | n <;> rcases hobt with _ | t <;>
        simp [refreshBody, hsec, href, hacc]
  · intro st pid old newCreds now saveOk
    rw [settleRefresh_ok_refreshMap]
    exact mapFind?_mapSet_self _ _ _

/-- Witness for C1 at scenario S3/S4: three calls on a fresh default provider
holding `exCur` create exactly one refresh promise, and its body invokes
`refreshUserToken` exactly once. -/
theorem idempotent_refresh_single_flight_witness :
    (idempotentRefreshN exSt "a0" 3).2.head? = some (.created 0) ∧
    createdCount (idempotentRefreshN exSt "a0" 3).2 = 1 ∧
    (refreshBody (.ok exCur) "a0" (.ok exTok)).2 = 1 := by
  have h := idempotent_refresh_single_flight.2.1 exSt "a0" 3 (by decide) (by decide)
  have h3 := idempotent_refresh_single_flight.2.2.1 exCur "a0" (.ok exTok)
    (by decide) (by decide) (by decide)
  exact ⟨h.1, h.2.2.1, h3⟩

/-- C2: with the provider's cell settled to current credentials `cur` carrying a
(truthy) client secret and refresh token, a call `idempotentRefresh T'` for a
token `T'` that is not `cur.accessToken` and not a key of the refresh map
creates a refresh promise whose parent is the settled cell, and that promise's
body rejects with `FatalProviderError "Refresh was called with a stale or
unknown access token"` without ever invoking `refreshUserToken` (invocation
count 0), for every conceivable upstream outcome. -/
theorem stale_token_rejection (st : ProviderState) (cur : Credentials) (T' : String)
    (upstream : Except Err AccessToken)
    (hmap : mapFind? st.refreshMap T' = none)
    (hcell : st.credentials = .settled (.ok cur))
    (hsec : truthy cur.clientSecret = true) (href : truthy cur.refreshToken = true)
    (hne : cur.accessToken ≠ T') :
    (idempotentRefreshSync st T').2 = .created st.nextPid ∧
    (idempotentRefreshSync st T').1.parents.head? = some (st.nextPid, .settled (.ok cur)) ∧
    refreshBody (.ok cur) T' upstream =
      (.error (.fatal "Refresh was called with a stale or unknown access token"), 0) := by
  refine ⟨?_, ?_, ?_⟩
  · simp [idempotentRefreshSync, hmap]
  · simp [idempotentRefreshSync, hmap, hcell]
  · simp [refreshBody, hsec, href, hne]

/-- Witness for C2 at scenario S5: refreshing the unknown token `"a_unknown"`
while `"a0"` is live rejects with the stale-token error and never reaches
`refreshUserToken`. -/
theorem stale_token_rejection_witness :
    refreshBody (.ok exCur) "a_unknown" (.ok exTok) =
      (.error (.fatal "Refresh was called with a stale or unknown access token"), 0) :=
  (stale_token_rejection exSt exCur "a_unknown" (.ok exTok) (by decide) (by decide)
    (by decide) (by decide) (by decide)).2.2

/-- The upstream failure used in the C3/C9 failed-refresh scenario. -/
def c3Err : Err := .upstream "HTTP 500"

/-- State after `idempotentRefresh "a0"` was called on `exSt`: one in-flight
refresh promise with id 0, installed in the map and in the credentials cell. -/
def c3StInflight : ProviderState := (idempotentRefreshSync exSt "a0").1

/-- State after the in-flight refresh promise rejected with `c3Err` and
settled: the map entry is removed but the credentials cell keeps the failed
promise's result. -/
def c3StFailed : ProviderState :=
  settleRefresh c3StInflight 0 "a0" (.error c3Err) 1618531201000 true

/-- C3 counterexample: in the concrete post-failure state `c3StFailed` the
refresh-map entry for `"a0"` is indeed gone and the rejection reached the
awaiters, but — against the claim's final conjunct — a subsequent `fetch()`
does **not** attempt a new refresh: `await this.credentials` rethrows the
original error (`.failure c3Err`) before the refresh logic is reached. -/
theorem failed_refresh_fetch_counterexample :
    mapFind? c3StFailed.refreshMap "a0" = none ∧
    c3StFailed.credentials = .settled (.error c3Err) ∧
    (fetchResolved c3StFailed (.error c3Err) 1618531300000 true).result = .failure c3Err ∧
    (fetchResolved c3StFailed (.error c3Err) 1618531300000 true).result.attemptsRefresh
      = false := by
  decide

/-- C3 (amended): when the refresh promise `pid` for `oldAccessToken` rejects
with `e`, the refresh-map entry keyed by `oldAccessToken` is removed and the
rejection propagates to all awaiters (the settled promise's one value is
`.error e`, and the credentials cell — not rolled back — now holds it); a
subsequent `fetch()` then rejects with that same error and does not attempt a
new refresh. -/
theorem failed_refresh_removes_entry (st : ProviderState) (pid : Nat) (old : String)
    (e : Err) (now now' : Int) (saveOk saveOk' : Bool)
    (hcell : st.credentials = .pending pid) :
    mapFind? (settleRefresh st pid old (.error e) now saveOk).refreshMap old = none ∧
    (settleRefresh st pid old (.error e) now saveOk).credentials = .settled (.error e) ∧
    (fetchResolved (settleRefresh st pid old (.error e) now saveOk)
        (.error e) now' saveOk').result = .failure e ∧
    ((fetchResolved (settleRefresh st pid old (.error e) now saveOk)
        (.error e) now' saveOk').result).attemptsRefresh = false := by
  refine ⟨?_, settleRefresh_credentials_pending st pid old _ now saveOk hcell, ?_, ?_⟩
  · rw [settleRefresh_error_refreshMap]
    exact mapFind?_mapErase_self _ _
  · simp [fetchResolved]
  · simp [fetchResolved, FetchResult.attemptsRefresh]

/-- Witness for C3's amended theorem at the concrete failed-refresh scenario. -/
theorem failed_refresh_removes_entry_witness :
    mapFind? (settleRefresh c3StInflight 0 "a0" (.error c3Err) 1618531201000 true).refreshMap "a0"
      = none ∧
    (settleRefresh c3StInflight 0 "a0" (.error c3Err) 1618531201000 true).credentials
      = .settled (.error c3Err) :=
  have h := failed_refresh_removes_entry c3StInflight 0 "a0" c3Err 1618531201000
    1618531300000 true true (by decide)
  ⟨h.1, h.2.1⟩

/-- C9: once a refresh promise rejects, the provider never recovers.  The cell
was synchronously replaced by the refresh promise when it was created (the
promise's recorded parent is the old cell) and is not restored on failure, so
after the failed settle the cell holds `.error e`; from then on every `fetch()`
rejects with that same error without attempting a refresh, and any new refresh
promise created for a token absent from the map chains on the poisoned cell, so
its body rejects with the same original error and never invokes
`refreshUserToken`. -/
theorem rejected_refresh_poisons_provider :
    (∀ st pid old e now saveOk, st.credentials = .pending pid →
        (settleRefresh st pid old (.error e) now saveOk).credentials
          = .settled (.error e)) ∧
    (∀ st e now saveOk, st.credentials = .settled (.error e) →
        fetch st now saveOk = some (fetchResolved st (.error e) now saveOk) ∧
        (fetchResolved st (.error e) now saveOk).result = .failure e ∧
        (fetchResolved st (.error e) now saveOk).result.attemptsRefresh = false) ∧
    (∀ st old, mapFind? st.refreshMap old = none →
        (idempotentRefreshSync st old).2 = .created st.nextPid ∧
        (idempotentRefreshSync st old).1.parents.head?
          = some (st.nextPid, st.credentials)) ∧
    (∀ e old upstream, refreshBody (.error e) old upstream = (.error e, 0)) := by
  refine ⟨?_, ?_, ?_, ?_⟩
  · intro st pid old e now saveOk hcell
    exact settleRefresh_credentials_pending st pid old _ now saveOk hcell
  · intro st e now saveOk hcell
    exact ⟨by simp [fetch, hcell], by simp [fetchResolved], by
      simp [fetchResolved, FetchResult.attemptsRefresh]⟩
  · intro st old hnone
    exact ⟨by simp [idempotentRefreshSync, hnone], by simp [idempotentRefreshSync, hnone]⟩
  · intro e old upstream
    rfl

/-- Witness for C9 at the concrete failed-refresh scenario: the poisoned
provider's `fetch` keeps rejecting with the original upstream error. -/
theorem rejected_refresh_poisons_provider_witness :
    fetch c3StFailed 1618531300000 true
      = some (fetchResolved c3StFailed (.error c3Err) 1618531300000 true) ∧
    (fetchResolved c3StFailed (.error c3Err) 1618531300000 true).result
      = .failure c3Err :=
  have h := rejected_refresh_poisons_provider.2.1 c3StFailed c3Err 1618531300000 true
    (by decide)
  ⟨h.1, h.2.1⟩

/-- C4: a credential whose `expiryDate` is `null` is returned unchanged by
`fetch()` at every wall-clock time and for every `refreshPadding`, never
triggering an automatic refresh (`AbstractRefreshableProvider.fetch` skips the
whole expiry check when `expiryDate !== null`); and hydration
(`AbstractStaticProvider.initCredentials`) represents a missing `expires_in`
from the identity service — a `null` token-info `expiryDate` — as
`expiryDate = null` on the hydrated credentials. -/
theorem null_expiry_never_refreshes :
    (∀ cur now refreshPadding, cur.expiryDate = none →
        rFetch cur now refreshPadding = .value cur) ∧
    (∀ creds ti l, (creds.scopes.isNone || creds.expiryDate.isNone) = true →
        ti.expiryDate = none → ti.scopes = some l →
        staticInitCredentials creds ti =
          (.ok { clientId := creds.clientId, accessToken := creds.accessToken
                 scopes := l, expiryDate := none }, 1)) := by
  constructor
  · intro cur now refreshPadding h
    simp [rFetch, h]
  · intro creds ti l hneed hexp hsc
    simp [staticInitCredentials, hneed, hexp, hsc]

/-- Witness for C4: a null-expiry credential survives `fetch` untouched at an
arbitrary late instant, and hydrating a scope-less record against a token info
without `expires_in` yields a null `expiryDate`. -/
theorem null_expiry_never_refreshes_witness :
    rFetch { clientId := "c", accessToken := "a0", clientSecret := "s"
             refreshToken := "r0", scopes := ["x"], expiryDate := none
             expiresIn := 0, timestamp := 0 } 99999999999999 500
      = .value { clientId := "c", accessToken := "a0", clientSecret := "s"
                 refreshToken := "r0", scopes := ["x"], expiryDate := none
                 expiresIn := 0, timestamp := 0 } ∧
    staticInitCredentials
        { clientId := "c", accessToken := "a0", scopes := none, expiryDate := none }
        { scopes := some ["x"], expiryDate := none, expiresIn := none
          obtainmentDate := none }
      = (.ok { clientId := "c", accessToken := "a0", scopes := ["x"]
               expiryDate := none }, 1) :=
  ⟨null_expiry_never_refreshes.1 _ 99999999999999 500 (by decide),
    null_expiry_never_refreshes.2 _ _ ["x"] (by decide) (by decide) (by decide)⟩

/-- C5: on settled current credentials `cur` (whose `expiryDate` is non-null by
the `Credentials` type of `AbstractProvider.ts`): when
`cur.expiryDate − now ≤ refreshPadding` a `fetch()` delegates exactly once to
`idempotentRefresh cur.accessToken` if `cur` carries a truthy client secret and
refresh token, and fails with `FatalProviderError "Static credentials have
expired"` otherwise; when `cur.expiryDate − now > refreshPadding` it returns
`cur` unchanged, attempts no refresh, and leaves the refresh map untouched. -/
theorem fetch_refresh_padding (st : ProviderState) (cur : Credentials) (now : Int)
    (saveOk : Bool) :
    (cur.expiryDate - now ≤ st.refreshPadding →
        truthy cur.clientSecret = true → truthy cur.refreshToken = true →
        fetchResolved st (.ok cur) now saveOk =
          ⟨(idempotentRefreshSync st cur.accessToken).1,
            .refresh cur.accessToken (idempotentRefreshSync st cur.accessToken).2,
            false⟩) ∧
    (cur.expiryDate - now ≤ st.refreshPadding →
        (truthy cur.clientSecret && truthy cur.refreshToken) = false →
        fetchResolved st (.ok cur) now saveOk =
          ⟨st, .failure (.fatal "Static credentials have expired"), false⟩) ∧
    (st.refreshPadding < cur.expiryDate - now →
        (fetchResolved st (.ok cur) now saveOk).result = .value cur ∧
        ((fetchResolved st (.ok cur) now saveOk).result).attemptsRefresh = false ∧
        (fetchResolved st (.ok cur) now saveOk).state.refreshMap = st.refreshMap) := by
  refine ⟨?_, ?_, ?_⟩
  · intro hexp hsec href
    simp only [fetchResolved]
    rw [if_pos (by omega : cur.expiryDate - now - st.refreshPadding ≤ 0),
      if_pos (by simp [hsec, href])]
  · intro hexp hb
    simp only [fetchResolved]
    rw [if_pos (by omega : cur.expiryDate - now - st.refreshPadding ≤ 0),
      if_neg (by simp [hb])]
  · intro hfresh
    have hcond : ¬(cur.expiryDate - now - st.refreshPadding ≤ 0) := by omega
    refine ⟨?_, ?_, ?_⟩ <;>
      · simp only [fetchResolved]
        rw [if_neg hcond]
        split <;> (try split) <;>
          simp [FetchResult.attemptsRefresh, trySave_refreshMap]

/-- Witness for C5 at scenarios S1 and S2: with default padding 500 ms a fetch
one day before expiry returns the record unchanged; a fetch one second after
expiry delegates to `idempotentRefresh "a0"`. -/
theorem fetch_refresh_padding_witness :
    (fetchResolved exSt (.ok exCur) 1618444800000 true).result = .value exCur ∧
    fetchResolved exSt (.ok exCur) 1618531201000 true =
      ⟨(idempotentRefreshSync exSt "a0").1,
        .refresh "a0" (idempotentRefreshSync exSt "a0").2, false⟩ :=
  ⟨(fetch_refresh_padding exSt exCur 1618444800000 true).2.2 (by decide) |>.1,
    (fetch_refresh_padding exSt exCur 1618531201000 true).1 (by decide) (by decide)
      (by decide)⟩

/-- C6 boundary state: a save failed earlier and `nextSave` equals the instant
at which the next `fetch` arrives (2021-04-15T00:00:00Z). -/
def c6St : ProviderState := { exSt with nextSave := some 1618444800000 }

/-- C6 counterexample: at a `fetch()` whose wall-clock time is exactly
`nextSaveRetry` (`now = nextSave = 1618444800000`, credentials still fresh),
the code's strict comparison `this.nextSave.getTime() < now` does **not**
retry the save — against the claim's "every subsequent fetch() at a time
≥ nextSaveRetry retries the save" — and `nextSave` is left unchanged even
though the save would have succeeded. -/
theorem save_retry_boundary_counterexample :
    c6St.nextSave = some 1618444800000 ∧
    (fetchResolved c6St (.ok exCur) 1618444800000 true).saveAttempted = false ∧
    (fetchResolved c6St (.ok exCur) 1618444800000 true).state.nextSave
      = some 1618444800000 := by
  decide

/-- C6 (amended): a rejecting `saveCredentials` is absorbed — the settling
refresh still delivers the new credentials to every awaiter regardless of the
save outcome — and sets `nextSave = now + 60 s`; a subsequent `fetch()` (on
fresh credentials with a pending `nextSave = t`) retries the save **iff**
`t < now`, i.e. strictly after the stamp; after a failed retry at `now` no
fetch at any time up to `now + 60 s` attempts another save (at most once per
minute); a successful save clears `nextSave`. -/
theorem save_failure_resilience :
    (∀ st pid old c now saveOk, st.credentials = .pending pid →
        (settleRefresh st pid old (.ok c) now saveOk).credentials
          = .settled (.ok c)) ∧
    (∀ st now, (trySaveCredentials st now false).nextSave = some (now + 60000) ∧
        (trySaveCredentials st now true).nextSave = none) ∧
    (∀ st cur now t saveOk, st.nextSave = some t →
        st.refreshPadding < cur.expiryDate - now →
        ((fetchResolved st (.ok cur) now saveOk).saveAttempted = true ↔ t < now)) ∧
    (∀ st cur now t, st.nextSave = some t → t < now →
        st.refreshPadding < cur.expiryDate - now →
        (fetchResolved st (.ok cur) now false).state.nextSave = some (now + 60000) ∧
        ∀ cur' now'' saveOk'', now'' ≤ now + 60000 →
          (fetchResolved ((fetchResolved st (.ok cur) now false).state)
              (.ok cur') now'' saveOk'').saveAttempted = false) := by
  refine ⟨?_, ?_, ?_, ?_⟩
  · intro st pid old c now saveOk hcell
    exact settleRefresh_credentials_pending st pid old _ now saveOk hcell
  · intro st now
    exact ⟨rfl, rfl⟩
  · intro st cur now t saveOk hns hfresh
    rw [fetch_saveAttempted_iff]
    simp [hns]
    omega
  · intro st cur now t hns ht hfresh
    have hstep : fetchResolved st (.ok cur) now false =
        ⟨trySaveCredentials st now false, .value cur, true⟩ := by
      simp only [fetchResolved, hns]
      rw [if_neg (by omega : ¬(cur.expiryDate - now - st.refreshPadding ≤ 0)), if_pos ht]
    refine ⟨by rw [hstep]; rfl, ?_⟩
    intro cur' now'' saveOk'' hle
    rw [hstep]
    rcases hb : (fetchResolved (trySaveCredentials st now false) (.ok cur') now''
        saveOk'').saveAttempted
    · rfl
    · exfalso
      have h2 := (fetch_saveAttempted_iff _ cur' now'' saveOk'').mp hb
      rcases h2.2 with ⟨t', ht1, ht2⟩
      have hns' : (trySaveCredentials st now false).nextSave = some (now + 60000) := rfl
      rw [hns'] at ht1
      have := Option.some.inj ht1
      omega

/-- Witness for C6's amended theorem: retry timing on the concrete boundary
state (`nextSave = 1618444800000`): ten minutes later the retry fires. -/
theorem save_failure_resilience_witness :
    ((fetchResolved c6St (.ok exCur) 1618445400000 true).saveAttempted = true ↔
      (1618444800000 : Int) < 1618445400000) ∧
    (fetchResolved c6St (.ok exCur) 1618445400000 false).state.nextSave
      = some (1618445400000 + 60000) :=
  ⟨save_failure_resilience.2.2.1 c6St exCur 1618445400000 1618444800000 true
      (by decide) (by decide),
    (save_failure_resilience.2.2.2 c6St exCur 1618445400000 1618444800000
      (by decide) (by decide) (by decide)).1⟩

/-- C7 counterexample inputs: a loadable record with absent `scopes` (and
nothing else), and a token info whose `scopes` is not a list. -/
def c7Load : LoadableCredentials :=
  { clientId := "c", accessToken := "a0", clientSecret := none, refreshToken := none
    scopes := none, expiryDate := none, expiresIn := none, timestamp := none }

/-- Token info returning a non-list `scopes`. -/
def c7TokenInfo : TokenInfo :=
  { scopes := none, expiryDate := some 1618531200000, expiresIn := some 86400
    obtainmentDate := some 1618444800000 }

/-- C7 counterexample: hydration failure rejects with the message
`"Failed to hydrate missing data from the Twitch API"`, not the claim's
`"Failed to hydrate missing data"`. -/
theorem hydration_message_counterexample :
    (initCredentials c7Load c7TokenInfo).1
        = .error (.fatal "Failed to hydrate missing data from the Twitch API") ∧
    ¬((initCredentials c7Load c7TokenInfo).1
        = .error (.fatal "Failed to hydrate missing data")) := by
  decide

/-- C7 (amended): a loadable record with absent `scopes` is hydrated —
`getTokenInfo` is invoked (count 1) and its scopes land on the credentials the
cell settles to, before the first `fetch()` (which awaits that cell) returns;
if the token info's scopes are not a list, or the result still violates the
`Credentials` shape (no `Date` expiry or timestamp, no numeric `expires_in`),
initialization rejects with `FatalProviderError "Failed to hydrate missing
data from the Twitch API"`, and a rejected cell makes every `fetch()` —
every awaiter — reject with that error. -/
theorem hydration_populates_scopes (creds : LoadableCredentials) (ti : TokenInfo)
    (habs : creds.scopes = none) :
    (∀ l d n t, ti.scopes = some l → ti.expiryDate = some d → ti.expiresIn = some n →
        ti.obtainmentDate = some t →
        initCredentials creds ti =
          (.ok { clientId := creds.clientId, accessToken := creds.accessToken
                 clientSecret := creds.clientSecret, refreshToken := creds.refreshToken
                 scopes := l, expiryDate := d, expiresIn := n, timestamp := t }, 1)) ∧
    ((ti.scopes = none ∨ ti.expiryDate = none ∨ ti.expiresIn = none ∨
        ti.obtainmentDate = none) →
        initCredentials creds ti =
          (.error (.fatal "Failed to hydrate missing data from the Twitch API"), 1)) ∧
    (∀ st e now saveOk, st.credentials = .settled (.error e) →
        fetch st now saveOk = some ⟨st, .failure e, false⟩) := by
  have hneed : needsHydration creds = true := by
    simp [needsHydration, habs]
  refine ⟨?_, ?_, ?_⟩
  · intro l d n t hl hd hn ht
    simp [initCredentials, hneed, hl, hd, hn, ht]
  · intro hbad
    rcases hbad with h | h | h | h <;> simp [initCredentials, hneed, h]
  · intro st e now saveOk hcell
    simp [fetch, hcell, fetchResolved]

/-- Witness for C7's amended theorem: hydrating the scope-less `c7Load` with a
well-formed token info populates scopes `["x","y"]` with one `getTokenInfo`
call. -/
theorem hydration_populates_scopes_witness :
    initCredentials c7Load
        { scopes := some ["x", "y"], expiryDate := some 1618531200000
          expiresIn := some 86400, obtainmentDate := some 1618444800000 } =
      (.ok { clientId := "c", accessToken := "a0", clientSecret := none
             refreshToken := none, scopes := ["x", "y"]
             expiryDate := 1618531200000, expiresIn := 86400
             timestamp := 1618444800000 }, 1) :=
  (hydration_populates_scopes c7Load
      { scopes := some ["x", "y"], expiryDate := some 1618531200000
        expiresIn := some 86400, obtainmentDate := some 1618444800000 }
      (by decide)).1 ["x", "y"] 1618531200000 86400 1618444800000
    (by decide) (by decide) (by decide) (by decide)

theorem mapFind?_eq_none_of_not_mem (m : List (String × RefreshEntry)) (k : String)
    (h : k ∉ m.map Prod.fst) : mapFind? m k = none := by
  induction m with
  | nil => rfl
  | cons hd tl ih =>
    obtain ⟨k', v'⟩ := hd
    simp only [List.map_cons, List.mem_cons, not_or] at h
    simp only [mapFind?]
    rw [if_neg fun he => h.1 he.symm]
    exact ih h.2

theorem mapKeys_filter_subset (p : String × RefreshEntry → Bool)
    (m : List (String × RefreshEntry)) (k : String)
    (h : k ∈ (m.filter p).map Prod.fst) : k ∈ m.map Prod.fst := by
  rcases List.mem_map.mp h with ⟨kv, hkv, rfl⟩
  exact List.mem_map.mpr ⟨kv, (List.mem_filter.mp hkv).1, rfl⟩

theorem mapFind?_filter (p : String × RefreshEntry → Bool)
    (m : List (String × RefreshEntry)) (k : String)
    (hnd : (m.map Prod.fst).Nodup) :
    mapFind? (m.filter p) k =
      match mapFind? m k with
      | some v => if p (k, v) then some v else none
      | none => none := by
  induction m with
  | nil => rfl
  | cons hd tl ih =>
    obtain ⟨k', v'⟩ := hd
    simp only [List.map_cons, List.nodup_cons] at hnd
    rcases hp : p (k', v') with _ | _
    case false =>
      by_cases hk : k' = k
      · subst hk
        have hnone : mapFind? (tl.filter p) k' = none :=
          mapFind?_eq_none_of_not_mem _ _
            fun hm => hnd.1 (mapKeys_filter_subset p tl k' hm)
        simp [List.filter_cons, hp, mapFind?, hnone]
      · simp [List.filter_cons, hp, mapFind?, hk, ih hnd.2]
    case true =>
      by_cases hk : k' = k
      · subst hk
        simp [List.filter_cons, hp, mapFind?]
      · simp [List.filter_cons, hp, mapFind?, hk, ih hnd.2]

/-- C8: a pruner tick removes exactly the refresh-map entries holding a settled
record whose `expiryDate + expiryAge` (age in seconds, dates in ms) lies
strictly before `now`: an in-flight entry survives every tick no matter how
long it has been in flight, a settled entry is removed precisely when it is
past its grace window, and absent keys stay absent.  (The map has no duplicate
keys by construction — `mapSet` replaces in place — so key-uniqueness is a
hypothesis.) -/
theorem prune_settled_only (st : ProviderState) (now : Int)
    (hnd : (st.refreshMap.map Prod.fst).Nodup) :
    (∀ k pid, mapFind? st.refreshMap k = some (.inflight pid) →
        mapFind? (prune st now).refreshMap k = some (.inflight pid)) ∧
    (∀ k c, mapFind? st.refreshMap k = some (.settled c) →
        mapFind? (prune st now).refreshMap k =
          if c.expiryDate + st.expiryAge * 1000 < now then none
          else some (.settled c)) ∧
    (∀ k, mapFind? st.refreshMap k = none →
        mapFind? (prune st now).refreshMap k = none) := by
  have hfilter := fun k =>
    mapFind?_filter (pruneKeep st.expiryAge now) st.refreshMap k hnd
  refine ⟨?_, ?_, ?_⟩
  · intro k pid h
    have h1 := hfilter k
    rw [h] at h1
    simpa [prune, pruneKeep] using h1
  · intro k c h
    have h1 := hfilter k
    rw [h] at h1
    by_cases hc : c.expiryDate + st.expiryAge * 1000 < now
    · have h2 : c.expiryDate < now - st.expiryAge * 1000 := by omega
      simpa [prune, pruneKeep, h2, hc] using h1
    · have h2 : ¬c.expiryDate < now - st.expiryAge * 1000 := by omega
      simpa [prune, pruneKeep, h2, hc] using h1
  · intro k h
    have h1 := hfilter k
    rw [h] at h1
    simpa [prune] using h1

/-- Witness for C8: on a concrete map holding one in-flight entry, one stale
settled entry and one recent settled entry, a tick one day plus one second
after the stale entry's expiry removes exactly the stale settled entry. -/
theorem prune_settled_only_witness :
    mapFind? (prune { exSt with refreshMap :=
        [("p", .inflight 7), ("a_old", .settled exCur), ("a0", .settled exNew)] }
      1618617601000).refreshMap "p" = some (.inflight 7) ∧
    mapFind? (prune { exSt with refreshMap :=
        [("p", .inflight 7), ("a_old", .settled exCur), ("a0", .settled exNew)] }
      1618617601000).refreshMap "a_old" = none ∧
    mapFind? (prune { exSt with refreshMap :=
        [("p", .inflight 7), ("a_old", .settled exCur), ("a0", .settled exNew)] }
      1618617601000).refreshMap "a0" = some (.settled exNew) := by
  have h := prune_settled_only { exSt with refreshMap :=
      [("p", .inflight 7), ("a_old", .settled exCur), ("a0", .settled exNew)] }
    1618617601000 (by decide)
  refine ⟨h.1 "p" 7 (by decide), ?_, ?_⟩
  · have h2 := h.2.1 "a_old" exCur (by decide)
    rw [if_pos (by decide)] at h2
    exact h2
  · have h2 := h.2.1 "a0" exNew (by decide)
    rw [if_neg (by decide)] at h2
    exact h2

/-- C10: a `StaticAuthProvider` constructed without an access token rejects in
`loadCredentials` with `FatalProviderError "Child provider returned a null
accessToken"` for every client id; one constructed with an access token but an
empty client id rejects with `FatalProviderError "Empty clientId given"`; in
both cases initialization propagates the load error without ever invoking
`getTokenInfo` (invocation count 0), and since the credentials cell settles to
that error, every later `fetch()` — and hence `getAccessToken()`, which merely
awaits `fetch()` — rejects with the same error. -/
theorem static_provider_invalid_construction :
    (∀ clientId ti,
        staticLoadCredentials (mkStaticAuthProvider clientId none)
          = .error (.fatal "Child provider returned a null accessToken") ∧
        initCredentialsFromLoad
            (staticLoadCredentials (mkStaticAuthProvider clientId none)) ti
          = (.error (.fatal "Child provider returned a null accessToken"), 0)) ∧
    (∀ tok ti, tok ≠ "" →
        staticLoadCredentials (mkStaticAuthProvider "" (some tok))
          = .error (.fatal "Empty clientId given") ∧
        initCredentialsFromLoad
            (staticLoadCredentials (mkStaticAuthProvider "" (some tok))) ti
          = (.error (.fatal "Empty clientId given"), 0)) ∧
    (∀ st e now saveOk, st.credentials = .settled (.error e) →
        fetch st now saveOk = some ⟨st, .failure e, false⟩) := by
  refine ⟨?_, ?_, ?_⟩
  · intro clientId ti
    constructor <;>
      simp [mkStaticAuthProvider, staticLoadCredentials, initCredentialsFromLoad]
  · intro tok ti htok
    have hne : tok.isEmpty = false := by
      rcases h : tok.isEmpty
      · rfl
      · exact absurd ((String.isEmpty_iff tok).mp h) htok
    constructor <;>
      simp [mkStaticAuthProvider, staticLoadCredentials, initCredentialsFromLoad, hne]
  · intro st e now saveOk hcell
    simp [fetch, hcell, fetchResolved]

/-- Witness for C10: the two invalid constructions at concrete arguments. -/
theorem static_provider_invalid_construction_witness :
    staticLoadCredentials (mkStaticAuthProvider "clientId" none)
      = .error (.fatal "Child provider returned a null accessToken") ∧
    staticLoadCredentials (mkStaticAuthProvider "" (some "access:initial"))
      = .error (.fatal "Empty clientId given") :=
  ⟨(static_provider_invalid_construction.1 "clientId" c7TokenInfo).1,
    (static_provider_invalid_construction.2.1 "access:initial" c7TokenInfo
      (by decide)).1⟩

end Twurple
